import Mathlib

/-!
Verification of the Bardic preview server command loop
(src/src/preview_server.py).

The server reads a story document on the first input line, constructs an
external engine, emits a ready signal, then repeatedly reads one line,
decodes it as JSON, dispatches on its type field and writes exactly one
response line per command (except the exit command).

Modelling decisions:
- JSON values are the inductive `JValue`; numbers are modelled as integers
  (no claim depends on float behaviour).
- `json.loads` of an input line is abstracted: an input line is given to
  the loop already decoded, as `Except String JValue` (a decode-error
  message or a value).  End of input is the end of the input list.
- A Python dict is an association list with first-match lookup and
  replace-first-or-append insertion, matching insertion-ordered dicts.
- The external engine is abstract: an `EngineImpl` supplies `goto`,
  `choose` and `current` as functions from the opaque engine core and the
  session state to either an error message or a new core, new state and
  an `Output`.  A failing call is modelled as returning only the message
  (the server performs no rollback either way).
- Python builtin behaviour invoked by the source is translated: a
  non-dict command raises on `command.get`; `dict.update` of a
  non-mapping follows the CPython key-value-sequence protocol (pair
  lists merge element by element, empty lists and empty strings are
  no-ops, other shapes raise after merging any valid prefix), with the
  raised messages modelled as fixed strings.
-/

/-- JSON values, with numbers restricted to integers. -/
inductive JValue where
  | null : JValue
  | bool : Bool → JValue
  | num  : Int → JValue
  | str  : String → JValue
  | arr  : List JValue → JValue
  | obj  : List (String × JValue) → JValue

/-- A Python dict with string keys, as an insertion-ordered association list. -/
abbrev PyDict : Type := List (String × JValue)

/-- First-match lookup, the semantics of Python dict indexing and `.get`. -/
def pyLookup : List (String × JValue) → String → Option JValue
  | [], _ => none
  | (k', v') :: rest, k => if k' = k then some v' else pyLookup rest k

/-- Setting one key of a dict: replace the first binding of the key if
present (Python keeps the original position), otherwise append. -/
def dictSet : List (String × JValue) → String → JValue → List (String × JValue)
  | [], k, v => [(k, v)]
  | (k', v') :: rest, k, v =>
    if k' = k then (k, v) :: rest else (k', v') :: dictSet rest k v

/-- The merge of `engine.state.update(overlay)` for a dict overlay: each
overlay binding is written into the state in order, so for duplicate
overlay keys the last binding wins, exactly as in Python. -/
def pyDictUpdate (st : PyDict) (kvs : List (String × JValue)) : PyDict :=
  kvs.foldl (fun d p => dictSet d p.1 p.2) st

/-- Python truthiness of a JSON-decoded value (`if not x`). -/
def pyTruthy : JValue → Bool
  | .null => false
  | .bool b => b
  | .num n => n != 0
  | .str s => s ≠ ""
  | .arr l => !l.isEmpty
  | .obj l => !l.isEmpty

/-- Truthiness of the result of `command.get(key)`: an absent key gives
Python `None`, which is falsy. -/
def pyTruthyOpt : Option JValue → Bool
  | none => false
  | some v => pyTruthy v

/-- Python `x is None` for the result of `command.get(key)`: true when the
key is absent and when it is bound to JSON null (both decode to `None`). -/
def pyIsNone : Option JValue → Bool
  | none => true
  | some .null => true
  | some _ => false

/-- Unpacking one element of a key-value sequence, as CPython does for
`dict.update` of a non-mapping: a two-element list gives its two
elements, a two-character string gives its two characters as
one-character strings, a two-entry dict gives its two keys, any other
list, string or dict length is a ValueError, and a non-iterable element
is a TypeError. -/
def pyUnpackPair : JValue → Except String (JValue × JValue)
  | .arr [k, v] => .ok (k, v)
  | .arr _ => .error "update sequence element has wrong length"
  | .str s =>
    match s.data with
    | [c1, c2] => .ok (.str (String.mk [c1]), .str (String.mk [c2]))
    | _ => .error "update sequence element has wrong length"
  | .obj [(k1, _), (k2, _)] => .ok (.str k1, .str k2)
  | .obj _ => .error "update sequence element has wrong length"
  | _ => .error "cannot convert update sequence element to a sequence"

/-- Inserting one unpacked binding: string keys go into the dict; list
and dict keys are unhashable and raise; null, boolean and number keys
are hashable in Python and accepted, but a string-keyed dict model
cannot carry them, so such a binding is dropped without failing (the
success-or-failure classification stays faithful; no theorem depends on
the content of those bindings). -/
def pyInsertKey (d : PyDict) (k v : JValue) : Except String PyDict :=
  match k with
  | .str s => .ok (dictSet d s v)
  | .arr _ => .error "unhashable key in update sequence"
  | .obj _ => .error "unhashable key in update sequence"
  | _ => .ok d

/-- Merging a key-value sequence element by element, as CPython does:
bindings merged before a failing element are kept, and the failure
message is returned alongside the partially updated dict. -/
def pyDictUpdateIter (d : PyDict) : List JValue → PyDict × Option String
  | [] => (d, none)
  | item :: rest =>
    match pyUnpackPair item with
    | .error m => (d, some m)
    | .ok (k, v) =>
      match pyInsertKey d k v with
      | .error m => (d, some m)
      | .ok d2 => pyDictUpdateIter d2 rest

/-- `engine.state.update(user_state)` as the source calls it, returning
the resulting live state together with the raised message when the
update raises: a dict merges; a list follows the key-value sequence
protocol above; an empty string is an empty sequence (a no-op); a
non-empty string always fails on its first one-character element; null,
booleans and numbers are not iterable. -/
def stateUpdateFull (st : PyDict) : JValue → PyDict × Option String
  | .obj kvs => (pyDictUpdate st kvs, none)
  | .arr items => pyDictUpdateIter st items
  | .str s =>
    if s = "" then (st, none)
    else (st, some "update sequence element has wrong length")
  | _ => (st, some "state value is not iterable")

/-- The update viewed as success or failure only; the partially updated
state of a failing update is recovered through stateUpdateFull. -/
def stateUpdate (st : PyDict) (v : JValue) : Except String PyDict :=
  match stateUpdateFull st v with
  | (d, none) => .ok d
  | (_, some m) => .error m

/-- The engine Output: content, an ordered sequence of choices, and the
passage id, all engine-produced and passed through untouched. -/
structure Output where
  content : JValue
  choices : List JValue
  passage_id : JValue

/-- Direct translation of serialize_output: the success payload with the
derived has_choices flag. -/
def serialize_output (output : Output) : List (String × JValue) :=
  [("content", output.content),
   ("choices", .arr output.choices),
   ("passage_id", output.passage_id),
   ("has_choices", .bool (decide (output.choices.length > 0)))]

/-- The external engine operations.  `C` is the opaque engine core (the
passage graph and whatever else the engine owns besides its state).  Each
operation receives the core and the live session state and either fails
with a message or returns the new core, the new state and an Output. -/
structure EngineImpl (C : Type) where
  goto    : C → PyDict → JValue → Except String (C × PyDict × Output)
  choose  : C → PyDict → JValue → Except String (C × PyDict × Output)
  current : C → PyDict → Except String (C × PyDict × Output)

/-- The engine object held by the loop: the opaque core plus the mutable
session state dict. -/
structure Engine (C : Type) where
  core : C
  state : PyDict

/-- Whether the loop keeps reading after a command (`next`) or breaks
out of the while loop (`stop`, only for the exit command). -/
inductive LoopCtl where
  | next : LoopCtl
  | stop : LoopCtl

/-- Error record for a line that failed to decode as JSON. -/
def mkInvalidJson (m : String) : JValue :=
  .obj [("error", .str "Invalid JSON"), ("message", .str m)]

/-- Error record from the loop-level catch-all handler. -/
def mkUnexpected (m : String) : JValue :=
  .obj [("error", .str "Unexpected error"), ("message", .str m)]

/-- Error record for a preview command without a usable passage id. -/
def mkMissingPassage : JValue :=
  .obj [("error", .str "Missing passage ID")]

/-- Error record for a choice command without an index. -/
def mkMissingIndex : JValue :=
  .obj [("error", .str "Missing choice index")]

/-- Error record for an engine failure during preview or current. -/
def mkEngineError (m : String) : JValue :=
  .obj [("error", .str "Engine error"), ("message", .str m)]

/-- Error record for an engine failure during choice. -/
def mkChoiceError (m : String) : JValue :=
  .obj [("error", .str "Choice error"), ("message", .str m)]

/-- Error record for a command whose type is not one of the four known
strings; the type field carries the raw value, null when absent. -/
def mkUnknownType (t : Option JValue) : JValue :=
  .obj [("error", .str "Unknown command type"), ("type", t.getD .null)]

/-- Error record when the input stream ends before the story line. -/
def mkNoStory : JValue :=
  .obj [("error", .str "No story data provided")]

/-- Error record when the story line fails to decode. -/
def mkInvalidStory (m : String) : JValue :=
  .obj [("error", .str "Invalid story JSON"), ("message", .str m)]

/-- Error record when the engine constructor rejects the story. -/
def mkInitFailed (m tb : String) : JValue :=
  .obj [("error", .str "Engine initialization failed"),
        ("message", .str m), ("traceback", .str tb)]

/-- The ready signal emitted once after successful startup. -/
def mkReady : JValue :=
  .obj [("status", .str "ready")]

/-- The preview handler: read the passage field and the state overlay
(default empty dict), reject a falsy or absent passage without touching
the engine, otherwise merge the overlay into the live state, then call
goto inside its own handler that converts a failure into an Engine error
record.  A failing merge propagates to the loop-level handler, and any
bindings merged before the failure stay in the live state. -/
def handlePreview {C : Type} (E : EngineImpl C) (eng : Engine C)
    (kvs : List (String × JValue)) : Engine C × List JValue :=
  let passage := pyLookup kvs "passage"
  let user_state := (pyLookup kvs "state").getD (.obj [])
  if pyTruthyOpt passage = false then (eng, [mkMissingPassage])
  else
    match stateUpdateFull eng.state user_state with
    | (st', none) =>
      match E.goto eng.core st' (passage.getD .null) with
      | .ok (c', st'', out) => (⟨c', st''⟩, [.obj (serialize_output out)])
      | .error m => (⟨eng.core, st'⟩, [mkEngineError m])
    | (st', some m) => (⟨eng.core, st'⟩, [mkUnexpected m])

/-- The choice handler: reject an absent or null index without calling the
engine, otherwise call choose inside its own handler that converts a
failure into a Choice error record. -/
def handleChoice {C : Type} (E : EngineImpl C) (eng : Engine C)
    (kvs : List (String × JValue)) : Engine C × List JValue :=
  let idx := pyLookup kvs "index"
  if pyIsNone idx then (eng, [mkMissingIndex])
  else
    match E.choose eng.core eng.state (idx.getD .null) with
    | .ok (c', st', out) => (⟨c', st'⟩, [.obj (serialize_output out)])
    | .error m => (eng, [mkChoiceError m])

/-- The current handler: query the current passage inside a handler that
converts a failure into an Engine error record. -/
def handleCurrent {C : Type} (E : EngineImpl C) (eng : Engine C) :
    Engine C × List JValue :=
  match E.current eng.core eng.state with
  | .ok (c', st', out) => (⟨c', st'⟩, [.obj (serialize_output out)])
  | .error m => (eng, [mkEngineError m])

/-- One iteration of the loop body on a decoded line: route a decode
failure to the Invalid JSON record, a non-object command to the loop-level
catch-all (Python raises on `command.get`), otherwise dispatch on the type
field; only the exit branch stops the loop. -/
def processLine {C : Type} (E : EngineImpl C) (eng : Engine C) :
    Except String JValue → Engine C × List JValue × LoopCtl
  | .error m => (eng, [mkInvalidJson m], .next)
  | .ok (.obj kvs) =>
    match pyLookup kvs "type" with
    | some (.str s) =>
      if s = "preview" then
        let r := handlePreview E eng kvs; (r.1, r.2, .next)
      else if s = "choice" then
        let r := handleChoice E eng kvs; (r.1, r.2, .next)
      else if s = "current" then
        let r := handleCurrent E eng; (r.1, r.2, .next)
      else if s = "exit" then (eng, [], .stop)
      else (eng, [mkUnknownType (some (.str s))], .next)
    | t => (eng, [mkUnknownType t], .next)
  | .ok _ => (eng, [mkUnexpected "command object has no attribute get"], .next)

/-- The command loop: process decoded lines until the list ends (end of
input) or a command stops the loop; collect the emitted response lines. -/
def mainLoop {C : Type} (E : EngineImpl C) (eng : Engine C) :
    List (Except String JValue) → List JValue
  | [] => []
  | l :: rest =>
    match processLine E eng l with
    | (eng', out, .next) => out ++ mainLoop E eng' rest
    | (_, out, .stop) => out

/-- The whole process: the first list element is the decoded story line
(an empty list is end of input before any line), `initEng` is the engine
constructor returning either the core and initial state or a message and
traceback.  The result is the emitted output lines and the exit status. -/
def serverMain {C : Type} (initEng : JValue → Except (String × String) (C × PyDict))
    (E : EngineImpl C) : List (Except String JValue) → List JValue × Nat
  | [] => ([mkNoStory], 1)
  | story :: rest =>
    match story with
    | .error m => ([mkInvalidStory m], 1)
    | .ok sd =>
      match initEng sd with
      | .error (m, tb) => ([mkInitFailed m tb], 1)
      | .ok (c, st) => (mkReady :: mainLoop E ⟨c, st⟩ rest, 0)

/-- Whether a decoded line is an exit command: an object whose type field
is the string exit. -/
def isExitCommand : Except String JValue → Bool
  | .ok (.obj kvs) =>
    match pyLookup kvs "type" with
    | some (.str s) => s = "exit"
    | _ => false
  | _ => false

/-! ## Association-list lemmas for the state merge -/

/-- Left-biased combination of optional lookups. -/
def optOr : Option JValue → Option JValue → Option JValue
  | some v, _ => some v
  | none, o => o

lemma pyLookup_dictSet_self (st : List (String × JValue)) (k : String) (v : JValue) :
    pyLookup (dictSet st k v) k = some v := by
  induction st with
  | nil => simp [dictSet, pyLookup]
  | cons p rest ih =>
    obtain ⟨k', v'⟩ := p
    by_cases h : k' = k
    · simp [dictSet, h, pyLookup]
    · simp [dictSet, h, pyLookup, ih]

lemma pyLookup_dictSet_other (st : List (String × JValue)) (k k' : String) (v : JValue)
    (h : k ≠ k') : pyLookup (dictSet st k v) k' = pyLookup st k' := by
  induction st with
  | nil => simp [dictSet, pyLookup, h]
  | cons p rest ih =>
    obtain ⟨a, b⟩ := p
    by_cases ha : a = k
    · subst ha
      simp [dictSet, pyLookup, h]
    · simp [dictSet, ha, pyLookup, ih]

lemma pyLookup_append (l1 l2 : List (String × JValue)) (k : String) :
    pyLookup (l1 ++ l2) k = optOr (pyLookup l1 k) (pyLookup l2 k) := by
  induction l1 with
  | nil => simp [pyLookup, optOr]
  | cons p rest ih =>
    obtain ⟨a, b⟩ := p
    by_cases h : a = k
    · simp [pyLookup, h, optOr]
    · simp [pyLookup, h, ih]

lemma pyLookup_eq_none_of_not_mem (l : List (String × JValue)) (k : String)
    (h : ∀ p ∈ l, p.1 ≠ k) : pyLookup l k = none := by
  induction l with
  | nil => rfl
  | cons p rest ih =>
    obtain ⟨a, b⟩ := p
    have ha : a ≠ k := h (a, b) (by simp)
    simp only [pyLookup, if_neg ha]
    exact ih fun q hq => h q (by simp [hq])

/-- Lookup after the merge: a key bound in the overlay gets its last
overlay binding (reverse-first lookup), any other key keeps its prior
value.  This is exactly how Python dict update behaves. -/
lemma pyLookup_pyDictUpdate (st : PyDict) (kvs : List (String × JValue)) (k : String) :
    pyLookup (pyDictUpdate st kvs) k = optOr (pyLookup kvs.reverse k) (pyLookup st k) := by
  induction kvs generalizing st with
  | nil => simp [pyDictUpdate, pyLookup, optOr]
  | cons p tl ih =>
    obtain ⟨k0, v0⟩ := p
    have hstep : pyDictUpdate st ((k0, v0) :: tl) = pyDictUpdate (dictSet st k0 v0) tl := rfl
    rw [hstep, ih, List.reverse_cons, pyLookup_append]
    cases htl : pyLookup tl.reverse k with
    | some v => simp [optOr]
    | none =>
      by_cases hk : k0 = k
      · subst hk
        simp [optOr, pyLookup, pyLookup_dictSet_self]
      · simp [optOr, pyLookup, hk, pyLookup_dictSet_other st k0 k v0 hk]

/-- For an overlay without duplicate keys, first-match lookup and
last-match lookup agree, so the merged value is the overlay value. -/
lemma pyLookup_reverse_of_nodup (l : List (String × JValue))
    (h : (l.map Prod.fst).Nodup) (k : String) :
    pyLookup l.reverse k = pyLookup l k := by
  induction l with
  | nil => rfl
  | cons p tl ih =>
    obtain ⟨k0, v0⟩ := p
    rw [List.map_cons, List.nodup_cons] at h
    obtain ⟨hk0, htl⟩ := h
    rw [List.reverse_cons, pyLookup_append, ih htl]
    by_cases hk : k0 = k
    · subst hk
      have : pyLookup tl k0 = none := by
        apply pyLookup_eq_none_of_not_mem
        intro q hq hq1
        have hmem : q.1 ∈ tl.map Prod.fst := List.mem_map_of_mem Prod.fst hq
        exact hk0 (hq1 ▸ hmem)
      simp [this, optOr, pyLookup]
    · simp [pyLookup, hk]
      cases pyLookup tl k <;> simp [optOr]

/-! ## Loop-shape lemmas -/

lemma mainLoop_cons_next {C : Type} (E : EngineImpl C) (eng eng' : Engine C)
    (out : List JValue) (l : Except String JValue) (rest : List (Except String JValue))
    (h : processLine E eng l = (eng', out, .next)) :
    mainLoop E eng (l :: rest) = out ++ mainLoop E eng' rest := by
  simp [mainLoop, h]

lemma mainLoop_cons_stop {C : Type} (E : EngineImpl C) (eng eng' : Engine C)
    (out : List JValue) (l : Except String JValue) (rest : List (Except String JValue))
    (h : processLine E eng l = (eng', out, .stop)) :
    mainLoop E eng (l :: rest) = out := by
  simp [mainLoop, h]

/-! ## Every handler emits exactly one response line -/

lemma handlePreview_length {C : Type} (E : EngineImpl C) (eng : Engine C)
    (kvs : List (String × JValue)) : (handlePreview E eng kvs).2.length = 1 := by
  unfold handlePreview
  cases h1 : pyTruthyOpt (pyLookup kvs "passage") with
  | false => simp [h1]
  | true =>
    simp only [h1, Bool.true_eq_false, if_false]
    cases h3 : stateUpdateFull eng.state ((pyLookup kvs "state").getD (.obj [])) with
    | mk st' o =>
      cases o with
      | some m => simp [h3]
      | none =>
        cases h4 : E.goto eng.core st' ((pyLookup kvs "passage").getD .null) with
        | error m => simp [h3, h4]
        | ok r =>
          obtain ⟨c', st'', out⟩ := r
          simp [h3, h4]

lemma handleChoice_length {C : Type} (E : EngineImpl C) (eng : Engine C)
    (kvs : List (String × JValue)) : (handleChoice E eng kvs).2.length = 1 := by
  unfold handleChoice
  cases h1 : pyIsNone (pyLookup kvs "index") with
  | true => simp [h1]
  | false =>
    simp only [h1, Bool.false_eq_true, if_false]
    cases h2 : E.choose eng.core eng.state ((pyLookup kvs "index").getD .null) with
    | error m => simp [h2]
    | ok r =>
      obtain ⟨c', st', out⟩ := r
      simp [h2]

lemma handleCurrent_length {C : Type} (E : EngineImpl C) (eng : Engine C) :
    (handleCurrent E eng).2.length = 1 := by
  unfold handleCurrent
  cases h : E.current eng.core eng.state with
  | error m => simp [h]
  | ok r =>
    obtain ⟨c', st', out⟩ := r
    simp [h]

lemma pyIsNone_some_of_ne_null (i : JValue) (h : i ≠ .null) :
    pyIsNone (some i) = false := by
  cases i <;> first | exact absurd rfl h | rfl

lemma processLine_dispatch_preview {C : Type} (E : EngineImpl C) (eng : Engine C)
    (kvs : List (String × JValue)) (h : pyLookup kvs "type" = some (.str "preview")) :
    processLine E eng (.ok (.obj kvs)) =
      ((handlePreview E eng kvs).1, (handlePreview E eng kvs).2, .next) := by
  simp only [processLine, h]
  simp

lemma processLine_dispatch_choice {C : Type} (E : EngineImpl C) (eng : Engine C)
    (kvs : List (String × JValue)) (h : pyLookup kvs "type" = some (.str "choice")) :
    processLine E eng (.ok (.obj kvs)) =
      ((handleChoice E eng kvs).1, (handleChoice E eng kvs).2, .next) := by
  simp only [processLine, h]
  simp

lemma processLine_dispatch_current {C : Type} (E : EngineImpl C) (eng : Engine C)
    (kvs : List (String × JValue)) (h : pyLookup kvs "type" = some (.str "current")) :
    processLine E eng (.ok (.obj kvs)) =
      ((handleCurrent E eng).1, (handleCurrent E eng).2, .next) := by
  simp only [processLine, h]
  simp

lemma processLine_dispatch_exit {C : Type} (E : EngineImpl C) (eng : Engine C)
    (kvs : List (String × JValue)) (h : pyLookup kvs "type" = some (.str "exit")) :
    processLine E eng (.ok (.obj kvs)) = (eng, [], .stop) := by
  simp only [processLine, h]
  simp

/-! ## Handler behaviour lemmas -/

lemma stateUpdateFull_of_ok (st : PyDict) (v : JValue) (d : PyDict)
    (h : stateUpdate st v = .ok d) : stateUpdateFull st v = (d, none) := by
  unfold stateUpdate at h
  cases hf : stateUpdateFull st v with
  | mk d2 o =>
    rw [hf] at h
    cases o with
    | none =>
      simp at h
      rw [h]
    | some m => simp at h

lemma handlePreview_goto_err {C : Type} (E : EngineImpl C) (eng : Engine C)
    (kvs : List (String × JValue)) (p : JValue) (st' : PyDict) (m : String)
    (hp : pyLookup kvs "passage" = some p) (ht : pyTruthy p = true)
    (hu : stateUpdate eng.state ((pyLookup kvs "state").getD (.obj [])) = .ok st')
    (hg : E.goto eng.core st' p = .error m) :
    handlePreview E eng kvs = (⟨eng.core, st'⟩, [mkEngineError m]) := by
  have hu2 := stateUpdateFull_of_ok eng.state ((pyLookup kvs "state").getD (.obj [])) st' hu
  simp [handlePreview, hp, pyTruthyOpt, ht, hu2, hg]

lemma handlePreview_goto_ok {C : Type} (E : EngineImpl C) (eng : Engine C)
    (kvs : List (String × JValue)) (p : JValue) (st' st'' : PyDict) (c' : C)
    (out : Output)
    (hp : pyLookup kvs "passage" = some p) (ht : pyTruthy p = true)
    (hu : stateUpdate eng.state ((pyLookup kvs "state").getD (.obj [])) = .ok st')
    (hg : E.goto eng.core st' p = .ok (c', st'', out)) :
    handlePreview E eng kvs = (⟨c', st''⟩, [.obj (serialize_output out)]) := by
  have hu2 := stateUpdateFull_of_ok eng.state ((pyLookup kvs "state").getD (.obj [])) st' hu
  simp [handlePreview, hp, pyTruthyOpt, ht, hu2, hg]

lemma handlePreview_merge_err {C : Type} (E : EngineImpl C) (eng : Engine C)
    (kvs : List (String × JValue)) (p : JValue) (st' : PyDict) (m : String)
    (hp : pyLookup kvs "passage" = some p) (ht : pyTruthy p = true)
    (hu : stateUpdateFull eng.state ((pyLookup kvs "state").getD (.obj [])) =
      (st', some m)) :
    handlePreview E eng kvs = (⟨eng.core, st'⟩, [mkUnexpected m]) := by
  simp [handlePreview, hp, pyTruthyOpt, ht, hu]

lemma handlePreview_falsy {C : Type} (E : EngineImpl C) (eng : Engine C)
    (kvs : List (String × JValue))
    (hp : pyTruthyOpt (pyLookup kvs "passage") = false) :
    handlePreview E eng kvs = (eng, [mkMissingPassage]) := by
  simp [handlePreview, hp]

lemma handleChoice_none {C : Type} (E : EngineImpl C) (eng : Engine C)
    (kvs : List (String × JValue))
    (hi : pyIsNone (pyLookup kvs "index") = true) :
    handleChoice E eng kvs = (eng, [mkMissingIndex]) := by
  simp [handleChoice, hi]

lemma handleChoice_err {C : Type} (E : EngineImpl C) (eng : Engine C)
    (kvs : List (String × JValue)) (i : JValue) (m : String)
    (hi : pyLookup kvs "index" = some i) (hne : i ≠ .null)
    (hc : E.choose eng.core eng.state i = .error m) :
    handleChoice E eng kvs = (eng, [mkChoiceError m]) := by
  simp [handleChoice, hi, pyIsNone_some_of_ne_null i hne, hc]

lemma handleChoice_ok {C : Type} (E : EngineImpl C) (eng : Engine C)
    (kvs : List (String × JValue)) (i : JValue) (c' : C) (st' : PyDict)
    (out : Output)
    (hi : pyLookup kvs "index" = some i) (hne : i ≠ .null)
    (hc : E.choose eng.core eng.state i = .ok (c', st', out)) :
    handleChoice E eng kvs = (⟨c', st'⟩, [.obj (serialize_output out)]) := by
  simp [handleChoice, hi, pyIsNone_some_of_ne_null i hne, hc]

lemma handleCurrent_err {C : Type} (E : EngineImpl C) (eng : Engine C) (m : String)
    (hc : E.current eng.core eng.state = .error m) :
    handleCurrent E eng = (eng, [mkEngineError m]) := by
  simp [handleCurrent, hc]

lemma handleCurrent_ok {C : Type} (E : EngineImpl C) (eng : Engine C) (c' : C)
    (st' : PyDict) (out : Output)
    (hc : E.current eng.core eng.state = .ok (c', st', out)) :
    handleCurrent E eng = (⟨c', st'⟩, [.obj (serialize_output out)]) := by
  simp [handleCurrent, hc]

/-! ## Concrete fixtures used by the witnesses -/

/-- An engine whose every operation fails. -/
def failE : EngineImpl Unit :=
  ⟨fun _ _ _ => .error "boom", fun _ _ _ => .error "boom", fun _ _ => .error "boom"⟩

/-- A concrete engine output with two choices. -/
def demoOutput : Output := ⟨.str "hello", [.str "left", .str "right"], .str "start"⟩

/-- An engine whose every operation succeeds with demoOutput and leaves
the state alone. -/
def okE : EngineImpl Unit :=
  ⟨fun _ st _ => .ok ((), st, demoOutput), fun _ st _ => .ok ((), st, demoOutput),
   fun _ st => .ok ((), st, demoOutput)⟩

/-- An engine object with empty session state. -/
def engine0 : Engine Unit := ⟨(), []⟩

/-! ## The claims -/

/-- C1: for every command after the ready signal, a failure of the engine
call (goto during preview, choose during choice, current during current)
is caught at the handler boundary and converted to exactly one error
record (Engine error for preview and current, Choice error for choice),
and the loop continues to process subsequent lines: no engine failure
stops the loop. -/
theorem engine_failure_isolated {C : Type} (E : EngineImpl C) (eng : Engine C)
    (kvs : List (String × JValue)) (m : String) :
    (∀ p st' rest, pyLookup kvs "type" = some (.str "preview") →
      pyLookup kvs "passage" = some p → pyTruthy p = true →
      stateUpdate eng.state ((pyLookup kvs "state").getD (.obj [])) = .ok st' →
      E.goto eng.core st' p = .error m →
      processLine E eng (.ok (.obj kvs)) =
        (⟨eng.core, st'⟩, [mkEngineError m], .next) ∧
      mainLoop E eng (.ok (.obj kvs) :: rest) =
        mkEngineError m :: mainLoop E ⟨eng.core, st'⟩ rest) ∧
    (∀ i rest, pyLookup kvs "type" = some (.str "choice") →
      pyLookup kvs "index" = some i → i ≠ .null →
      E.choose eng.core eng.state i = .error m →
      processLine E eng (.ok (.obj kvs)) = (eng, [mkChoiceError m], .next) ∧
      mainLoop E eng (.ok (.obj kvs) :: rest) =
        mkChoiceError m :: mainLoop E eng rest) ∧
    (∀ rest, pyLookup kvs "type" = some (.str "current") →
      E.current eng.core eng.state = .error m →
      processLine E eng (.ok (.obj kvs)) = (eng, [mkEngineError m], .next) ∧
      mainLoop E eng (.ok (.obj kvs) :: rest) =
        mkEngineError m :: mainLoop E eng rest) := by
  refine ⟨?_, ?_, ?_⟩
  · intro p st' rest hty hp ht hu hg
    have h : processLine E eng (.ok (.obj kvs)) =
        (⟨eng.core, st'⟩, [mkEngineError m], .next) := by
      rw [processLine_dispatch_preview E eng kvs hty,
        handlePreview_goto_err E eng kvs p st' m hp ht hu hg]
    exact ⟨h, mainLoop_cons_next E eng ⟨eng.core, st'⟩ [mkEngineError m] _ rest h⟩
  · intro i rest hty hi hne hc
    have h : processLine E eng (.ok (.obj kvs)) = (eng, [mkChoiceError m], .next) := by
      rw [processLine_dispatch_choice E eng kvs hty,
        handleChoice_err E eng kvs i m hi hne hc]
    exact ⟨h, mainLoop_cons_next E eng eng [mkChoiceError m] _ rest h⟩
  · intro rest hty hc
    have h : processLine E eng (.ok (.obj kvs)) = (eng, [mkEngineError m], .next) := by
      rw [processLine_dispatch_current E eng kvs hty, handleCurrent_err E eng m hc]
    exact ⟨h, mainLoop_cons_next E eng eng [mkEngineError m] _ rest h⟩

/-- Witness for C1: a concretely failing engine produces exactly the
Engine error and Choice error records on preview, choice and current
commands, with the loop set to continue. -/
theorem engine_failure_isolated_witness :
    processLine failE engine0
        (.ok (.obj [("type", .str "preview"), ("passage", .str "start")])) =
      (engine0, [mkEngineError "boom"], .next) ∧
    processLine failE engine0
        (.ok (.obj [("type", .str "choice"), ("index", .num 0)])) =
      (engine0, [mkChoiceError "boom"], .next) ∧
    processLine failE engine0 (.ok (.obj [("type", .str "current")])) =
      (engine0, [mkEngineError "boom"], .next) := by
  refine ⟨?_, ?_, ?_⟩
  · exact ((engine_failure_isolated failE engine0
      [("type", .str "preview"), ("passage", .str "start")] "boom").1
      (.str "start") [] [] rfl rfl rfl rfl rfl).1
  · exact ((engine_failure_isolated failE engine0
      [("type", .str "choice"), ("index", .num 0)] "boom").2.1
      (.num 0) [] rfl rfl (fun h => nomatch h) rfl).1
  · exact ((engine_failure_isolated failE engine0
      [("type", .str "current")] "boom").2.2 [] rfl rfl).1

/-- C2: for every Output, serialize_output produces exactly the four
fields content, choices, passage_id and has_choices, where has_choices
equals length of choices greater than zero and choices is the engine
sequence unchanged and in order; and every success response emitted by
the three handlers is exactly the serialization of the engine Output. -/
theorem serialize_output_success_shape {C : Type} (E : EngineImpl C)
    (eng : Engine C) (kvs : List (String × JValue)) (out : Output) (c' : C)
    (st' : PyDict) :
    pyLookup (serialize_output out) "content" = some out.content ∧
    pyLookup (serialize_output out) "choices" = some (.arr out.choices) ∧
    pyLookup (serialize_output out) "passage_id" = some out.passage_id ∧
    pyLookup (serialize_output out) "has_choices" =
      some (.bool (decide (out.choices.length > 0))) ∧
    (serialize_output out).map Prod.fst =
      ["content", "choices", "passage_id", "has_choices"] ∧
    (pyLookup kvs "type" = some (.str "current") →
      E.current eng.core eng.state = .ok (c', st', out) →
      processLine E eng (.ok (.obj kvs)) =
        (⟨c', st'⟩, [.obj (serialize_output out)], .next)) ∧
    (∀ i, pyLookup kvs "type" = some (.str "choice") →
      pyLookup kvs "index" = some i → i ≠ .null →
      E.choose eng.core eng.state i = .ok (c', st', out) →
      processLine E eng (.ok (.obj kvs)) =
        (⟨c', st'⟩, [.obj (serialize_output out)], .next)) ∧
    (∀ p st1, pyLookup kvs "type" = some (.str "preview") →
      pyLookup kvs "passage" = some p → pyTruthy p = true →
      stateUpdate eng.state ((pyLookup kvs "state").getD (.obj [])) = .ok st1 →
      E.goto eng.core st1 p = .ok (c', st', out) →
      processLine E eng (.ok (.obj kvs)) =
        (⟨c', st'⟩, [.obj (serialize_output out)], .next)) := by
  refine ⟨rfl, rfl, rfl, rfl, rfl, ?_, ?_, ?_⟩
  · intro hty hc
    rw [processLine_dispatch_current E eng kvs hty,
      handleCurrent_ok E eng c' st' out hc]
  · intro i hty hi hne hc
    rw [processLine_dispatch_choice E eng kvs hty,
      handleChoice_ok E eng kvs i c' st' out hi hne hc]
  · intro p st1 hty hp ht hu hg
    rw [processLine_dispatch_preview E eng kvs hty,
      handlePreview_goto_ok E eng kvs p st1 st' c' out hp ht hu hg]

/-- Witness for C2: the serialized demo output carries its two choices in
order with has_choices true, and a successful current command emits
exactly that serialization. -/
theorem serialize_output_success_shape_witness :
    pyLookup (serialize_output demoOutput) "choices" =
      some (.arr [.str "left", .str "right"]) ∧
    pyLookup (serialize_output demoOutput) "has_choices" = some (.bool true) ∧
    processLine okE engine0 (.ok (.obj [("type", .str "current")])) =
      (engine0, [.obj (serialize_output demoOutput)], .next) := by
  refine ⟨?_, ?_, ?_⟩
  · exact (serialize_output_success_shape okE engine0 [("type", .str "current")]
      demoOutput () []).2.1
  · exact (serialize_output_success_shape okE engine0 [("type", .str "current")]
      demoOutput () []).2.2.2.1
  · exact (serialize_output_success_shape okE engine0 [("type", .str "current")]
      demoOutput () []).2.2.2.2.2.1 rfl rfl

/-- C3: the preview state overlay merge writes every overlay binding into
the session state (overwriting prior values, inserting new keys; for a
duplicate overlay key the last binding wins, which is the overlay value
as Python decodes it), leaves keys not mentioned by the overlay
unchanged, is applied to the live state before goto is called, and is not
rolled back when the goto call then fails: the failing preview leaves the
merged state in place for all subsequent commands of the loop. -/
theorem state_overlay_merge {C : Type} (E : EngineImpl C) (eng : Engine C)
    (st : PyDict) (kvs ov : List (String × JValue)) (k : String) (m : String) :
    (∀ v, pyLookup ov.reverse k = some v →
      pyLookup (pyDictUpdate st ov) k = some v) ∧
    (∀ v, (ov.map Prod.fst).Nodup → pyLookup ov k = some v →
      pyLookup (pyDictUpdate st ov) k = some v) ∧
    ((∀ p ∈ ov, p.1 ≠ k) →
      pyLookup (pyDictUpdate st ov) k = pyLookup st k) ∧
    (∀ p rest, pyLookup kvs "type" = some (.str "preview") →
      pyLookup kvs "passage" = some p → pyTruthy p = true →
      pyLookup kvs "state" = some (.obj ov) →
      E.goto eng.core (pyDictUpdate eng.state ov) p = .error m →
      processLine E eng (.ok (.obj kvs)) =
        (⟨eng.core, pyDictUpdate eng.state ov⟩, [mkEngineError m], .next) ∧
      mainLoop E eng (.ok (.obj kvs) :: rest) =
        mkEngineError m :: mainLoop E ⟨eng.core, pyDictUpdate eng.state ov⟩ rest) := by
  refine ⟨?_, ?_, ?_, ?_⟩
  · intro v hv
    rw [pyLookup_pyDictUpdate, hv]
    rfl
  · intro v hnd hv
    rw [pyLookup_pyDictUpdate, pyLookup_reverse_of_nodup ov hnd k, hv]
    rfl
  · intro hnone
    rw [pyLookup_pyDictUpdate,
      pyLookup_eq_none_of_not_mem ov.reverse k
        (fun p hp => hnone p (List.mem_reverse.mp hp))]
    rfl
  · intro p rest hty hp ht hs hg
    have hu : stateUpdate eng.state ((pyLookup kvs "state").getD (.obj [])) =
        .ok (pyDictUpdate eng.state ov) := by
      rw [hs]
      rfl
    have h : processLine E eng (.ok (.obj kvs)) =
        (⟨eng.core, pyDictUpdate eng.state ov⟩, [mkEngineError m], .next) := by
      rw [processLine_dispatch_preview E eng kvs hty,
        handlePreview_goto_err E eng kvs p (pyDictUpdate eng.state ov) m hp ht hu hg]
    exact ⟨h, mainLoop_cons_next E eng ⟨eng.core, pyDictUpdate eng.state ov⟩
      [mkEngineError m] _ rest h⟩

/-- Witness for C3: merging the overlay gold 5 into a state holding hp 3
sets gold and keeps hp, and a preview whose goto fails leaves the merged
state in the engine for the rest of the loop. -/
theorem state_overlay_merge_witness :
    pyLookup (pyDictUpdate [("hp", .num 3)] [("gold", .num 5)]) "gold" =
      some (.num 5) ∧
    pyLookup (pyDictUpdate [("hp", .num 3)] [("gold", .num 5)]) "hp" =
      some (.num 3) ∧
    processLine failE ⟨(), [("hp", .num 3)]⟩
        (.ok (.obj [("type", .str "preview"), ("passage", .str "start"),
          ("state", .obj [("gold", .num 5)])])) =
      (⟨(), pyDictUpdate [("hp", .num 3)] [("gold", .num 5)]⟩,
        [mkEngineError "boom"], .next) := by
  refine ⟨?_, ?_, ?_⟩
  · exact (state_overlay_merge failE ⟨(), [("hp", .num 3)]⟩ [("hp", .num 3)]
      [] [("gold", .num 5)] "gold" "boom").1 (.num 5) rfl
  · exact (state_overlay_merge failE ⟨(), [("hp", .num 3)]⟩ [("hp", .num 3)]
      [] [("gold", .num 5)] "hp" "boom").2.2.1 (by decide)
  · exact ((state_overlay_merge failE ⟨(), [("hp", .num 3)]⟩ [("hp", .num 3)]
      [("type", .str "preview"), ("passage", .str "start"),
        ("state", .obj [("gold", .num 5)])]
      [("gold", .num 5)] "k" "boom").2.2.2 (.str "start") [] rfl rfl rfl rfl rfl).1

/-- C4: a choice command whose index field is omitted or explicit null is
answered with exactly the Missing choice index record, the engine state
is unchanged, choose is never consulted (the result is the same for every
engine), and the loop continues. -/
theorem missing_choice_index_rejected {C : Type} (E : EngineImpl C)
    (eng : Engine C) (kvs : List (String × JValue))
    (rest : List (Except String JValue)) :
    pyLookup kvs "type" = some (.str "choice") →
    pyIsNone (pyLookup kvs "index") = true →
    processLine E eng (.ok (.obj kvs)) = (eng, [mkMissingIndex], .next) ∧
    mainLoop E eng (.ok (.obj kvs) :: rest) =
      mkMissingIndex :: mainLoop E eng rest := by
  intro hty hi
  have h : processLine E eng (.ok (.obj kvs)) = (eng, [mkMissingIndex], .next) := by
    rw [processLine_dispatch_choice E eng kvs hty, handleChoice_none E eng kvs hi]
  exact ⟨h, mainLoop_cons_next E eng eng [mkMissingIndex] _ rest h⟩

/-- Witness for C4: both the omitted index and the explicit null index
give the Missing choice index record with the engine untouched. -/
theorem missing_choice_index_rejected_witness :
    processLine failE engine0 (.ok (.obj [("type", .str "choice")])) =
      (engine0, [mkMissingIndex], .next) ∧
    processLine failE engine0
        (.ok (.obj [("type", .str "choice"), ("index", .null)])) =
      (engine0, [mkMissingIndex], .next) := by
  refine ⟨?_, ?_⟩
  · exact (missing_choice_index_rejected failE engine0
      [("type", .str "choice")] [] rfl rfl).1
  · exact (missing_choice_index_rejected failE engine0
      [("type", .str "choice"), ("index", .null)] [] rfl rfl).1

/-- C5: a preview command whose passage field is absent or falsy is
answered with exactly the Missing passage ID record and the engine state
is not touched: even a supplied state overlay is not merged, since the
whole engine object is returned unchanged, and goto is never consulted
(the result is the same for every engine). -/
theorem missing_passage_id_rejected {C : Type} (E : EngineImpl C)
    (eng : Engine C) (kvs : List (String × JValue))
    (rest : List (Except String JValue)) :
    pyLookup kvs "type" = some (.str "preview") →
    pyTruthyOpt (pyLookup kvs "passage") = false →
    processLine E eng (.ok (.obj kvs)) = (eng, [mkMissingPassage], .next) ∧
    mainLoop E eng (.ok (.obj kvs) :: rest) =
      mkMissingPassage :: mainLoop E eng rest := by
  intro hty hp
  have h : processLine E eng (.ok (.obj kvs)) = (eng, [mkMissingPassage], .next) := by
    rw [processLine_dispatch_preview E eng kvs hty, handlePreview_falsy E eng kvs hp]
  exact ⟨h, mainLoop_cons_next E eng eng [mkMissingPassage] _ rest h⟩

/-- Witness for C5: an absent passage with a supplied overlay, and an
empty-string passage, both give the Missing passage ID record with the
session state (holding hp 3) unchanged. -/
theorem missing_passage_id_rejected_witness :
    processLine failE ⟨(), [("hp", .num 3)]⟩
        (.ok (.obj [("type", .str "preview"),
          ("state", .obj [("gold", .num 5)])])) =
      (⟨(), [("hp", .num 3)]⟩, [mkMissingPassage], .next) ∧
    processLine failE ⟨(), [("hp", .num 3)]⟩
        (.ok (.obj [("type", .str "preview"), ("passage", .str "")])) =
      (⟨(), [("hp", .num 3)]⟩, [mkMissingPassage], .next) := by
  refine ⟨?_, ?_⟩
  · exact (missing_passage_id_rejected failE ⟨(), [("hp", .num 3)]⟩
      [("type", .str "preview"), ("state", .obj [("gold", .num 5)])] [] rfl rfl).1
  · exact (missing_passage_id_rejected failE ⟨(), [("hp", .num 3)]⟩
      [("type", .str "preview"), ("passage", .str "")] [] rfl rfl).1

/-- C6: when the input stream ends before any line, the process emits the
No story data provided record, exits with a non-zero status, and the
ready signal is never among the written lines. -/
theorem no_story_data_fatal {C : Type}
    (initEng : JValue → Except (String × String) (C × PyDict))
    (E : EngineImpl C) :
    serverMain initEng E [] = ([mkNoStory], 1) ∧
    (serverMain initEng E []).2 ≠ 0 ∧
    mkReady ∉ (serverMain initEng E []).1 := by
  refine ⟨rfl, by simp [serverMain], ?_⟩
  simp [serverMain, mkReady, mkNoStory]

/-- Witness for C6 at a concrete engine constructor. -/
theorem no_story_data_fatal_witness :
    serverMain (fun _ => (.ok ((), []) : Except (String × String) (Unit × PyDict)))
      okE [] = ([mkNoStory], 1) :=
  (no_story_data_fatal (fun _ => .ok ((), [])) okE).1

/-- C7: a decoded command whose type field is anything other than the four
known strings (including an absent type field) is answered with the
Unknown command type record carrying the raw type value (null when
absent), and the loop continues. -/
theorem unknown_command_type_reported {C : Type} (E : EngineImpl C)
    (eng : Engine C) (kvs : List (String × JValue)) (t : Option JValue)
    (rest : List (Except String JValue)) :
    pyLookup kvs "type" = t →
    (∀ s, t = some (.str s) →
      s ≠ "preview" ∧ s ≠ "choice" ∧ s ≠ "current" ∧ s ≠ "exit") →
    processLine E eng (.ok (.obj kvs)) = (eng, [mkUnknownType t], .next) ∧
    mainLoop E eng (.ok (.obj kvs) :: rest) =
      mkUnknownType t :: mainLoop E eng rest := by
  intro ht hne
  have h : processLine E eng (.ok (.obj kvs)) = (eng, [mkUnknownType t], .next) := by
    cases t with
    | none => simp [processLine, ht]
    | some v =>
      cases v with
      | str s =>
        obtain ⟨h1, h2, h3, h4⟩ := hne s rfl
        simp [processLine, ht, h1, h2, h3, h4]
      | null => simp [processLine, ht]
      | bool b => simp [processLine, ht]
      | num n => simp [processLine, ht]
      | arr l => simp [processLine, ht]
      | obj l => simp [processLine, ht]
  exact ⟨h, mainLoop_cons_next E eng eng [mkUnknownType t] _ rest h⟩

/-- Witness for C7: the unknown type reset and a command without a type
field both give the Unknown command type record. -/
theorem unknown_command_type_reported_witness :
    processLine failE engine0 (.ok (.obj [("type", .str "reset")])) =
      (engine0, [mkUnknownType (some (.str "reset"))], .next) ∧
    processLine failE engine0 (.ok (.obj [("foo", .null)])) =
      (engine0, [mkUnknownType none], .next) := by
  refine ⟨?_, ?_⟩
  · exact (unknown_command_type_reported failE engine0 [("type", .str "reset")]
      (some (.str "reset")) [] rfl
      (fun s h => by
        injection h with h1
        injection h1 with h2
        subst h2
        exact ⟨by decide, by decide, by decide, by decide⟩)).1
  · exact (unknown_command_type_reported failE engine0 [("foo", .null)]
      none [] rfl (fun s h => nomatch h)).1

/-- C8: a line that fails to decode as JSON is answered with the Invalid
JSON record carrying the decode error text, the process does not stop,
and the rest of the input is processed with the engine unchanged, so the
next valid command still produces its correct response. -/
theorem invalid_json_recovered {C : Type} (E : EngineImpl C) (eng : Engine C)
    (m : String) (rest : List (Except String JValue)) :
    processLine E eng (.error m) = (eng, [mkInvalidJson m], .next) ∧
    mainLoop E eng (.error m :: rest) =
      mkInvalidJson m :: mainLoop E eng rest := by
  exact ⟨rfl, mainLoop_cons_next E eng eng [mkInvalidJson m] _ rest rfl⟩

/-- Witness for C8: a decode failure followed by a current command leaves
the current command to be processed as if the bad line had not occurred. -/
theorem invalid_json_recovered_witness :
    mainLoop okE engine0 [.error "bad", .ok (.obj [("type", .str "current")])] =
      mkInvalidJson "bad" ::
        mainLoop okE engine0 [.ok (.obj [("type", .str "current")])] :=
  (invalid_json_recovered okE engine0 "bad"
    [.ok (.obj [("type", .str "current")])]).2

/-- C9: an exit command emits no response line, stops the loop so no
further input is read, and after a successful startup the process exit
status is zero; end of input likewise ends the loop normally; and every
command other than exit emits exactly one response line and continues the
loop. -/
theorem exit_and_single_response {C : Type} (E : EngineImpl C) (eng : Engine C)
    (l : Except String JValue) (rest : List (Except String JValue)) :
    (isExitCommand l = true →
      processLine E eng l = (eng, [], .stop) ∧ mainLoop E eng (l :: rest) = []) ∧
    (isExitCommand l = false →
      (processLine E eng l).2.1.length = 1 ∧ (processLine E eng l).2.2 = .next) ∧
    mainLoop E eng ([] : List (Except String JValue)) = [] ∧
    (∀ (initEng : JValue → Except (String × String) (C × PyDict)) sd c st lines,
      initEng sd = .ok (c, st) →
      (serverMain initEng E (.ok sd :: lines)).2 = 0) := by
  refine ⟨?_, ?_, rfl, ?_⟩
  · intro hex
    cases l with
    | error m => simp [isExitCommand] at hex
    | ok v =>
      cases v with
      | obj kvs =>
        cases hT : pyLookup kvs "type" with
        | none => simp [isExitCommand, hT] at hex
        | some w =>
          cases w with
          | str s =>
            simp only [isExitCommand, hT] at hex
            have hs : s = "exit" := by simpa using hex
            subst hs
            have h := processLine_dispatch_exit E eng kvs hT
            exact ⟨h, mainLoop_cons_stop E eng eng [] _ rest h⟩
          | null => simp [isExitCommand, hT] at hex
          | bool b => simp [isExitCommand, hT] at hex
          | num n => simp [isExitCommand, hT] at hex
          | arr a => simp [isExitCommand, hT] at hex
          | obj o => simp [isExitCommand, hT] at hex
      | null => simp [isExitCommand] at hex
      | bool b => simp [isExitCommand] at hex
      | num n => simp [isExitCommand] at hex
      | str s => simp [isExitCommand] at hex
      | arr a => simp [isExitCommand] at hex
  · intro hne
    cases l with
    | error m => exact ⟨rfl, rfl⟩
    | ok v =>
      cases v with
      | obj kvs =>
        cases hT : pyLookup kvs "type" with
        | none => exact ⟨by simp [processLine, hT], by simp [processLine, hT]⟩
        | some w =>
          cases w with
          | str s =>
            have hsx : s ≠ "exit" := by
              intro hs
              subst hs
              simp [isExitCommand, hT] at hne
            by_cases h1 : s = "preview"
            · subst h1
              refine ⟨?_, ?_⟩
              · rw [processLine_dispatch_preview E eng kvs hT]
                exact handlePreview_length E eng kvs
              · rw [processLine_dispatch_preview E eng kvs hT]
            · by_cases h2 : s = "choice"
              · subst h2
                refine ⟨?_, ?_⟩
                · rw [processLine_dispatch_choice E eng kvs hT]
                  exact handleChoice_length E eng kvs
                · rw [processLine_dispatch_choice E eng kvs hT]
              · by_cases h3 : s = "current"
                · subst h3
                  refine ⟨?_, ?_⟩
                  · rw [processLine_dispatch_current E eng kvs hT]
                    exact handleCurrent_length E eng
                  · rw [processLine_dispatch_current E eng kvs hT]
                · exact ⟨by simp [processLine, hT, h1, h2, h3, hsx],
                    by simp [processLine, hT, h1, h2, h3, hsx]⟩
          | null => exact ⟨by simp [processLine, hT], by simp [processLine, hT]⟩
          | bool b => exact ⟨by simp [processLine, hT], by simp [processLine, hT]⟩
          | num n => exact ⟨by simp [processLine, hT], by simp [processLine, hT]⟩
          | arr a => exact ⟨by simp [processLine, hT], by simp [processLine, hT]⟩
          | obj o => exact ⟨by simp [processLine, hT], by simp [processLine, hT]⟩
      | null => exact ⟨rfl, rfl⟩
      | bool b => exact ⟨rfl, rfl⟩
      | num n => exact ⟨rfl, rfl⟩
      | str s => exact ⟨rfl, rfl⟩
      | arr a => exact ⟨rfl, rfl⟩
  · intro initEng sd c st lines h
    simp [serverMain, h]

/-- Witness for C9: a concrete exit command stops the loop before a
following current command, a current command emits one line and
continues, and a successful startup gives exit status zero. -/
theorem exit_and_single_response_witness :
    (processLine okE engine0 (.ok (.obj [("type", .str "exit")])) =
        (engine0, [], .stop) ∧
      mainLoop okE engine0 [.ok (.obj [("type", .str "exit")]),
        .ok (.obj [("type", .str "current")])] = []) ∧
    ((processLine okE engine0
        (.ok (.obj [("type", .str "current")]))).2.1.length = 1 ∧
      (processLine okE engine0
        (.ok (.obj [("type", .str "current")]))).2.2 = .next) ∧
    (serverMain (fun _ => (.ok ((), []) : Except (String × String) (Unit × PyDict)))
      okE [.ok .null]).2 = 0 := by
  refine ⟨?_, ?_, ?_⟩
  · exact (exit_and_single_response okE engine0
      (.ok (.obj [("type", .str "exit")]))
      [.ok (.obj [("type", .str "current")])]).1 rfl
  · exact (exit_and_single_response okE engine0
      (.ok (.obj [("type", .str "current")])) []).2.1 rfl
  · exact (exit_and_single_response okE engine0 (.ok .null) []).2.2.2
      (fun _ => .ok ((), [])) .null () [] [] rfl

/-- Counterexample to C10 as stated: a preview whose state value is the
empty list is not a mapping, yet dict.update accepts it (an empty
key-value sequence), so the command proceeds to goto and a failing
engine yields an Engine error record, not an Unexpected error record;
and a state that is a list of key-value pairs even merges into the
session state, which persists into the failure response.  The final
conjunct records that an Engine error record is not an Unexpected error
record. -/
theorem loop_catchall_unexpected_counterexample :
    processLine failE engine0
        (.ok (.obj [("type", .str "preview"), ("passage", .str "start"),
          ("state", .arr [])])) =
      (engine0, [mkEngineError "boom"], .next) ∧
    processLine failE engine0
        (.ok (.obj [("type", .str "preview"), ("passage", .str "start"),
          ("state", .arr [.arr [.str "gold", .num 5]])])) =
      (⟨(), [("gold", .num 5)]⟩, [mkEngineError "boom"], .next) ∧
    mkEngineError "boom" ≠ mkUnexpected "boom" := by
  refine ⟨rfl, rfl, ?_⟩
  simp [mkEngineError, mkUnexpected]

/-- C10 (amended): a failure raised in the loop body outside the
per-engine-call handlers is caught by the loop-level catch-all, reported
as an Unexpected error record, and the loop continues, never reaching
the fatal boundary.  The two such failures are a line decoding to a
non-object, whose type-field access raises, and a preview whose state
value makes dict.update raise; the update raises for null, booleans,
numbers and non-empty strings (and for lists holding a malformed
element, keeping the partial merge), while pair lists, empty lists and
empty strings are accepted by dict.update, so those proceed to goto
instead of raising. -/
theorem loop_catchall_unexpected {C : Type} (E : EngineImpl C) (eng : Engine C)
    (v : JValue) (kvs : List (String × JValue)) (st' : PyDict) (m : String)
    (rest : List (Except String JValue)) :
    ((∀ kvs2, v ≠ .obj kvs2) →
      processLine E eng (.ok v) =
        (eng, [mkUnexpected "command object has no attribute get"], .next) ∧
      mainLoop E eng (.ok v :: rest) =
        mkUnexpected "command object has no attribute get" ::
          mainLoop E eng rest) ∧
    (∀ p sv, pyLookup kvs "type" = some (.str "preview") →
      pyLookup kvs "passage" = some p → pyTruthy p = true →
      pyLookup kvs "state" = some sv →
      stateUpdateFull eng.state sv = (st', some m) →
      processLine E eng (.ok (.obj kvs)) =
        (⟨eng.core, st'⟩, [mkUnexpected m], .next) ∧
      mainLoop E eng (.ok (.obj kvs) :: rest) =
        mkUnexpected m :: mainLoop E ⟨eng.core, st'⟩ rest) ∧
    (stateUpdateFull eng.state .null).2.isSome = true ∧
    (∀ b, (stateUpdateFull eng.state (.bool b)).2.isSome = true) ∧
    (∀ n, (stateUpdateFull eng.state (.num n)).2.isSome = true) ∧
    (∀ s, s ≠ "" → (stateUpdateFull eng.state (.str s)).2.isSome = true) := by
  refine ⟨?_, ?_, rfl, fun b => rfl, fun n => rfl, ?_⟩
  · intro hno
    have h : processLine E eng (.ok v) =
        (eng, [mkUnexpected "command object has no attribute get"], .next) := by
      cases v with
      | obj kvs2 => exact absurd rfl (hno kvs2)
      | null => rfl
      | bool b => rfl
      | num n => rfl
      | str s => rfl
      | arr a => rfl
    exact ⟨h, mainLoop_cons_next E eng eng _ _ rest h⟩
  · intro p sv hty hp ht hs hu
    have hu2 : stateUpdateFull eng.state ((pyLookup kvs "state").getD (.obj [])) =
        (st', some m) := by
      rw [hs]
      exact hu
    have h : processLine E eng (.ok (.obj kvs)) =
        (⟨eng.core, st'⟩, [mkUnexpected m], .next) := by
      rw [processLine_dispatch_preview E eng kvs hty,
        handlePreview_merge_err E eng kvs p st' m hp ht hu2]
    exact ⟨h, mainLoop_cons_next E eng ⟨eng.core, st'⟩ _ _ rest h⟩
  · intro s hsne
    simp [stateUpdateFull, hsne]

/-- Witness for C10: a line decoding to the number 7 and a preview whose
state is the number 3 (on which dict.update raises) are both reported as
Unexpected error with the loop continuing. -/
theorem loop_catchall_unexpected_witness :
    processLine failE engine0 (.ok (.num 7)) =
      (engine0, [mkUnexpected "command object has no attribute get"], .next) ∧
    processLine failE engine0
        (.ok (.obj [("type", .str "preview"), ("passage", .str "start"),
          ("state", .num 3)])) =
      (engine0, [mkUnexpected "state value is not iterable"], .next) := by
  refine ⟨?_, ?_⟩
  · exact ((loop_catchall_unexpected failE engine0 (.num 7) [] []
      "state value is not iterable" []).1 (fun kvs2 h => nomatch h)).1
  · exact ((loop_catchall_unexpected failE engine0 .null
      [("type", .str "preview"), ("passage", .str "start"),
        ("state", .num 3)] [] "state value is not iterable" []).2.1
      (.str "start") (.num 3) rfl rfl rfl rfl rfl).1
